import Mathlib

/-!
Verification of the core logic of `back.py`, an insurance-agent chat backend:
the per-IP sliding-window rate limiter (`_rate`), the upstream retry wrapper
(`call_openai_with_retry`), the `/chat` history truncation and reply
extraction, and the module-level configuration loading.

Timestamps (Python `time.time()` returns a real-valued clock) are modelled
over an arbitrary linear ordered ring `τ`; all general theorems hold for any
such `τ` (in particular `ℚ` and `ℝ`), and concrete executions are evaluated
at `τ = ℤ`.
-/

namespace Back

/-- `WINDOW_SECONDS, MAX_REQ = 60, 30` (back.py line 53). -/
def WINDOW_SECONDS (τ : Type) [LinearOrderedRing τ] : τ := 60

/-- `WINDOW_SECONDS, MAX_REQ = 60, 30` (back.py line 53). -/
def MAX_REQ : ℕ := 30

/-- The payload of a FastAPI `HTTPException(status_code, detail)`. -/
structure HTTPExceptionData where
  status : ℕ
  detail : String
deriving DecidableEq

/-- The exception raised by `_rate` on rejection (back.py line 59). -/
def rateLimitError : HTTPExceptionData :=
  ⟨429, "Too Many Requests. Please retry later."⟩

/-- The global `_bucket` dict mapping each client IP to its stored
timestamps; a missing key reads as `[]` (`_bucket.get(ip, [])`). -/
def Bucket (τ : Type) : Type := String → List τ

variable {τ : Type} [LinearOrderedRing τ]

/-- The initial `_bucket = {}`. -/
def emptyBucket : Bucket τ := fun _ => []

/-- `_bucket[ip] = xs` (back.py line 61). -/
def updateBucket (b : Bucket τ) (ip : String) (xs : List τ) : Bucket τ :=
  fun k => if k = ip then xs else b k

/-- `_rate(ip)` (back.py lines 55-61): keep the stored timestamps `t` with
`now - t < WINDOW_SECONDS`; if at least `MAX_REQ` remain, raise the 429
exception leaving `_bucket` untouched; otherwise append `now` and store.
Returns the outcome together with the resulting `_bucket`. -/
def rate (b : Bucket τ) (ip : String) (now : τ) :
    Except HTTPExceptionData Unit × Bucket τ :=
  let xs := (b ip).filter fun t => decide (now - t < WINDOW_SECONDS τ)
  if MAX_REQ ≤ xs.length then
    (Except.error rateLimitError, b)
  else
    (Except.ok (), updateBucket b ip (xs ++ [now]))

/-- Threading `_bucket` through one `_rate` call. -/
def rateStep (b : Bucket τ) (c : String × τ) : Bucket τ :=
  (rate b c.1 c.2).2

/-- The `_bucket` state after a sequence of `_rate` calls from startup. -/
def runCalls (calls : List (String × τ)) : Bucket τ :=
  calls.foldl rateStep emptyBucket

/-- Whether a `_rate` outcome admitted the request. -/
def isAdmitted (r : Except HTTPExceptionData Unit) : Bool :=
  match r with
  | Except.ok _ => true
  | Except.error _ => false

/-- One step of the admission trace: record the outcome, thread the bucket. -/
def traceStep (acc : List Bool × Bucket τ) (c : String × τ) :
    List Bool × Bucket τ :=
  (acc.1 ++ [isAdmitted (rate acc.2 c.1 c.2).1], (rate acc.2 c.1 c.2).2)

/-- The admission decisions for a sequence of `_rate` calls from startup. -/
def runTrace (calls : List (String × τ)) : List Bool :=
  (calls.foldl traceStep ([], emptyBucket)).1

/-- The number of stored timestamps inside the half-open window
`(T - WINDOW_SECONDS, T]`. -/
def windowCount (xs : List τ) (T : τ) : ℕ :=
  (xs.filter fun t =>
    decide (T - WINDOW_SECONDS τ < t) && decide (t ≤ T)).length

/-- `MODEL = "gpt-4o-mini"` (back.py line 66). -/
def MODEL : String := "gpt-4o-mini"

/-- `MAX_TOKENS = 500` (back.py line 67). -/
def MAX_TOKENS : ℕ := 500

/-- `TEMPERATURE = 0.3` (back.py line 68). -/
def TEMPERATURE : ℚ := 3 / 10

/-- `HISTORY_LIMIT = 8` (back.py line 69). -/
def HISTORY_LIMIT : ℕ := 8

/-- The outcome of one `client.chat.completions.create` attempt, classified
as in `call_openai_with_retry`: a successful response, a transient failure
(`APIConnectionError` or `RateLimitError`), or any other exception. -/
inductive CallOutcome (α ε : Type) where
  | success (a : α)
  | transient (e : ε)
  | terminal (e : ε)

/-- What a run of `call_openai_with_retry` did: the returned value or the
raised error, the number of attempts made, and the `time.sleep` durations
(in seconds) performed between attempts. -/
structure RetryResult (α ε : Type) where
  result : Except ε α
  attempts : ℕ
  sleeps : List ℚ

variable {α ε : Type}

/-- The loop of `call_openai_with_retry` (back.py lines 106-124), at attempt
index `attempt` with `remaining` further attempts allowed (`remaining`
corresponds to `retries - attempt`). `f` gives the outcome of each attempt. -/
def retryGo (f : ℕ → CallOutcome α ε) : ℕ → ℕ → RetryResult α ε
  | attempt, 0 =>
    match f attempt with
    | CallOutcome.success a => ⟨Except.ok a, 1, []⟩
    | CallOutcome.transient e => ⟨Except.error e, 1, []⟩
    | CallOutcome.terminal e => ⟨Except.error e, 1, []⟩
  | attempt, remaining + 1 =>
    match f attempt with
    | CallOutcome.success a => ⟨Except.ok a, 1, []⟩
    | CallOutcome.transient _ =>
      let rest := retryGo f (attempt + 1) remaining
      ⟨rest.result, rest.attempts + 1, ((3 : ℚ) / 2) :: rest.sleeps⟩
    | CallOutcome.terminal e => ⟨Except.error e, 1, []⟩

/-- `call_openai_with_retry(messages, retries, timeout)` (back.py lines
104-124), abstracted over the per-attempt outcomes `f`. -/
def call_openai_with_retry (f : ℕ → CallOutcome α ε) (retries : ℕ) :
    RetryResult α ε :=
  retryGo f 0 retries

/-- The `role` literal of a `ChatMessage` (back.py line 75). -/
inductive Role where
  | system
  | user
  | assistant
deriving DecidableEq

/-- The `ChatMessage` schema (back.py lines 74-76). -/
structure ChatMessage where
  role : Role
  content : String
deriving DecidableEq

/-- `SYSTEM_PROMPT` (back.py lines 88-99). -/
def SYSTEM_PROMPT : String :=
  "你是一位壽險外勤業務員的 AI 助理，協助更快速完成工作並協助客戶規劃。\n" ++
  "請遵守：\n" ++
  "1) 先確認客戶條件是否足以回答（年齡、預算、保障需求）。\n" ++
  "2) 以台灣常見壽險／醫療／外幣／投資型（基金連結標的）商品的一般性說明作答，避免提供法規或理賠承諾。\n" ++
  "3) 回覆格式：重點結論一段 + 條列 3–5 點 + 下一步建議。\n" ++
  "4) 若資訊不足或不確定，請明確說明並列出需要補充的項目。\n" ++
  "5) 禁止捏造公司內規／條款；必要時建議參考官方文件或請專員協助。\n" ++
  "6) 可依市場概況與客戶條件，提供投資型保單標的配置的一般性觀點與風險揭露（非投資建議）。\n" ++
  "7) 可協助統整客戶既有保單之保障與理財概況，並依使用者指示提出建議。\n" ++
  "8) 可主動詢問是否需要與業務員進一步討論或分享建議。\n"

/-- The synthetic system turn `{"role": "system", "content": SYSTEM_PROMPT}`
prepended by `chat` (back.py line 154). -/
def systemMessage : ChatMessage := ⟨Role.system, SYSTEM_PROMPT⟩

/-- `history = [m.model_dump() for m in body.messages][-HISTORY_LIMIT:]`
(back.py line 153): the Python slice `[-8:]` keeps the last
`min 8 length` elements, i.e. drops `length - 8` from the front. -/
def truncatedHistory (messages : List ChatMessage) : List ChatMessage :=
  messages.drop (messages.length - HISTORY_LIMIT)

/-- `msgs = [{"role": "system", "content": SYSTEM_PROMPT}] + history`
(back.py line 154): the message list handed to the upstream call. -/
def buildMessages (messages : List ChatMessage) : List ChatMessage :=
  systemMessage :: truncatedHistory messages

/-- Python `str.strip()`: remove leading and trailing whitespace. -/
def strip (s : String) : String :=
  String.mk (((s.data.dropWhile Char.isWhitespace).reverse.dropWhile
    Char.isWhitespace).reverse)

/-- The placeholder reply `"（沒有產生內容）"` (back.py line 159). -/
def PLACEHOLDER : String := "（沒有產生內容）"

/-- `reply = (r.choices[0].message.content or "").strip()` followed by
`ChatResponse(reply=reply or "（沒有產生內容）")` (back.py lines 158-159):
`content` is the possibly-`None` upstream reply content. -/
def extractReply (content : Option String) : String :=
  let reply := strip (content.getD "")
  if reply = "" then PLACEHOLDER else reply

/-- The module-level constants of back.py, gathered. -/
structure Config where
  openai_api_key : Option String
  openai_project : Option String
  frontend_origin : Option String
  model : String
  max_tokens : ℕ
  temperature : ℚ
  history_limit : ℕ
  window_seconds : ℚ
  max_requests : ℕ

/-- Module-level configuration loading (back.py lines 16-22, 53, 66-69):
`os.getenv` is read only for `OPENAI_API_KEY`, `OPENAI_PROJECT` and
`FRONTEND_ORIGIN`; the generation and rate-limit parameters are assigned
from literals. `env` maps an environment-variable name to its value. -/
def loadConfig (env : String → Option String) : Config :=
  ⟨env "OPENAI_API_KEY", env "OPENAI_PROJECT", env "FRONTEND_ORIGIN",
   MODEL, MAX_TOKENS, TEMPERATURE, HISTORY_LIMIT, WINDOW_SECONDS ℚ, MAX_REQ⟩


variable {τ : Type} [LinearOrderedRing τ]

lemma windowCount_le_length (xs : List τ) (T : τ) : windowCount xs T ≤ xs.length :=
  List.length_filter_le _ xs

lemma windowCount_append (xs ys : List τ) (T : τ) :
    windowCount (xs ++ ys) T = windowCount xs T + windowCount ys T := by
  simp [windowCount, List.filter_append]

lemma windowCount_singleton_le (t T : τ) : windowCount [t] T ≤ 1 := by
  simp only [windowCount]
  cases h : decide (T - WINDOW_SECONDS τ < t) && decide (t ≤ T) <;>
    simp [List.filter, h]

lemma rate_windowCount_le (b : Bucket τ) (ip ip' : String) (now T : τ) :
    windowCount ((rate b ip now).2 ip') T ≤
      max (windowCount (b ip') T) MAX_REQ := by
  unfold rate
  set xs := (b ip).filter fun t => decide (now - t < WINDOW_SECONDS τ) with hxs
  by_cases h : MAX_REQ ≤ xs.length
  · simp [h]
  · simp only [h, if_false]
    unfold updateBucket
    by_cases hk : ip' = ip
    · subst hk
      simp only [if_pos rfl]
      calc windowCount (xs ++ [now]) T
          = windowCount xs T + windowCount [now] T := windowCount_append _ _ _
        _ ≤ xs.length + 1 :=
            Nat.add_le_add (windowCount_le_length _ _) (windowCount_singleton_le _ _)
        _ ≤ MAX_REQ := by omega
        _ ≤ max (windowCount (b ip') T) MAX_REQ := le_max_right _ _
    · simp [hk]

lemma runCalls_inv (calls : List (String × τ)) :
    ∀ b : Bucket τ, (∀ ip T, windowCount (b ip) T ≤ MAX_REQ) →
      ∀ ip T, windowCount ((calls.foldl rateStep b) ip) T ≤ MAX_REQ := by
  induction calls with
  | nil => intro b hb; exact hb
  | cons c cs ih =>
    intro b hb
    refine ih (rateStep b c) ?_
    intro ip T
    refine le_trans (rate_windowCount_le b c.1 ip c.2 T) ?_
    exact max_le (hb ip T) le_rfl

/-- C1: every `_rate` call preserves the admission invariant, and along any
sequence of `_rate` calls from startup, for every client and every time `T`,
the number of stored timestamps in the window `(T - WINDOW_SECONDS, T]`
never exceeds `MAX_REQ`. -/
theorem rate_admission_invariant (τ : Type) [LinearOrderedRing τ] :
    (∀ (b : Bucket τ) (ip ip' : String) (now T : τ),
       windowCount ((rate b ip now).2 ip') T ≤
         max (windowCount (b ip') T) MAX_REQ)
    ∧ (∀ (calls : List (String × τ)) (ip : String) (T : τ),
       windowCount (runCalls calls ip) T ≤ MAX_REQ) := by
  constructor
  · exact fun b ip ip' now T => rate_windowCount_le b ip ip' now T
  · intro calls ip T
    refine runCalls_inv calls emptyBucket ?_ ip T
    intro ip' T'
    simp [windowCount, emptyBucket]



variable {τ : Type} [LinearOrderedRing τ]

lemma filter_window_form (xs : List τ) (now : τ) :
    (xs.filter fun t => decide (now - t < WINDOW_SECONDS τ)) =
      (xs.filter fun t => decide (now - WINDOW_SECONDS τ < t)) := by
  apply List.filter_congr
  intro t _
  simp only [decide_eq_decide]
  exact sub_lt_comm

/-- C2: `_rate` first keeps exactly the stored timestamps `t` with
`now - WINDOW_SECONDS < t`, pruning the rest; if at least `MAX_REQ` remain it rejects
without recording `now`, otherwise it appends `now` and accepts; and with
the defaults (window 60, limit 30), 30 requests at T=0 are admitted, a 31st
at T=0 is rejected, and a request at T=61 is admitted again. -/
theorem rate_step_spec (τ : Type) [LinearOrderedRing τ] :
    (∀ (b : Bucket τ) (ip : String) (now : τ),
       ((b ip).filter fun t => decide (now - t < WINDOW_SECONDS τ)) =
         ((b ip).filter fun t => decide (now - WINDOW_SECONDS τ < t)))
    ∧ (∀ (b : Bucket τ) (ip : String) (now : τ),
       MAX_REQ ≤
           ((b ip).filter fun t => decide (now - t < WINDOW_SECONDS τ)).length →
         rate b ip now = (Except.error rateLimitError, b))
    ∧ (∀ (b : Bucket τ) (ip : String) (now : τ),
       ((b ip).filter fun t => decide (now - t < WINDOW_SECONDS τ)).length <
           MAX_REQ →
         (rate b ip now).1 = Except.ok () ∧
         (rate b ip now).2 ip =
           ((b ip).filter fun t => decide (now - t < WINDOW_SECONDS τ)) ++ [now])
    ∧ runTrace (List.replicate 31 ("c", (0 : ℤ)) ++ [("c", (61 : ℤ))]) =
        List.replicate 30 true ++ [false, true] := by
  refine ⟨fun b ip now => filter_window_form (b ip) now, ?_, ?_, by decide⟩
  · intro b ip now h
    simp [rate, h]
  · intro b ip now h
    have h' : ¬ MAX_REQ ≤
        ((b ip).filter fun t => decide (now - t < WINDOW_SECONDS τ)).length :=
      Nat.not_le.mpr h
    constructor
    · simp [rate, h']
    · simp [rate, h', updateBucket]

/-- Witness for C2 at a concrete input: from the empty bucket, a first
request is admitted and its timestamp is recorded. -/
theorem rate_step_spec_witness :
    (rate (emptyBucket : Bucket ℤ) "c" 0).1 = Except.ok () ∧
    (rate (emptyBucket : Bucket ℤ) "c" 0).2 "c" =
      (((emptyBucket : Bucket ℤ) "c").filter fun t =>
        decide ((0 : ℤ) - t < WINDOW_SECONDS ℤ)) ++ [(0 : ℤ)] :=
  (rate_step_spec ℤ).2.2.1 emptyBucket "c" 0 (by decide)

/-- C5: when the pruned window already holds `MAX_REQ` timestamps, `_rate`
raises an HTTP 429 whose message begins with "Too Many Requests", and the
stored state is left unmodified. -/
theorem rate_reject_429 (τ : Type) [LinearOrderedRing τ]
    (b : Bucket τ) (ip : String) (now : τ)
    (h : MAX_REQ ≤
      ((b ip).filter fun t => decide (now - t < WINDOW_SECONDS τ)).length) :
    (rate b ip now).1 = Except.error rateLimitError ∧
    rateLimitError.status = 429 ∧
    (∃ rest, rateLimitError.detail = "Too Many Requests" ++ rest) ∧
    (rate b ip now).2 = b := by
  refine ⟨by simp [rate, h], rfl, ⟨". Please retry later.", rfl⟩, by simp [rate, h]⟩

/-- Witness for C5: a bucket holding 30 fresh timestamps rejects with the
429 error and the state is unchanged. -/
theorem rate_reject_429_witness :
    (rate (fun _ => List.replicate 30 (0 : ℤ) : Bucket ℤ) "c" 0).1 =
      Except.error rateLimitError ∧
    (rate (fun _ => List.replicate 30 (0 : ℤ) : Bucket ℤ) "c" 0).2 =
      (fun _ => List.replicate 30 (0 : ℤ) : Bucket ℤ) := by
  have h := rate_reject_429 ℤ (fun _ => List.replicate 30 (0 : ℤ)) "c" 0 (by decide)
  exact ⟨h.1, h.2.2.2⟩

/-- C6: a `_rate` call for one client identifier leaves every other client's
stored timestamp sequence unchanged. -/
theorem rate_other_client_frame (τ : Type) [LinearOrderedRing τ]
    (b : Bucket τ) (a a' : String) (now : τ) (h : a ≠ a') :
    (rate b a now).2 a' = b a' := by
  unfold rate
  by_cases hl : MAX_REQ ≤
      ((b a).filter fun t => decide (now - t < WINDOW_SECONDS τ)).length
  · simp [hl]
  · simp [hl, updateBucket, Ne.symm h]

/-- Witness for C6: a call for client "a" does not change client "b". -/
theorem rate_other_client_frame_witness :
    (rate (emptyBucket : Bucket ℤ) "a" 0).2 "b" = (emptyBucket : Bucket ℤ) "b" :=
  rate_other_client_frame ℤ emptyBucket "a" "b" 0 (by decide)



variable {α ε : Type}

lemma retryGo_attempts_pos (f : ℕ → CallOutcome α ε) (a r : ℕ) :
    1 ≤ (retryGo f a r).attempts := by
  cases r with
  | zero => cases h : f a <;> simp [retryGo, h]
  | succ r => cases h : f a <;> simp [retryGo, h]

lemma retryGo_attempts_le (f : ℕ → CallOutcome α ε) :
    ∀ (r a : ℕ), (retryGo f a r).attempts ≤ r + 1 := by
  intro r
  induction r with
  | zero => intro a; cases h : f a <;> simp [retryGo, h]
  | succ r ih =>
    intro a
    cases h : f a with
    | success v => simp [retryGo, h]
    | terminal e => simp [retryGo, h]
    | transient e =>
      simp only [retryGo, h]
      exact Nat.add_le_add_right (ih (a + 1)) 1

lemma retryGo_sleeps_const (f : ℕ → CallOutcome α ε) :
    ∀ (r a : ℕ) (q : ℚ), q ∈ (retryGo f a r).sleeps → q = 3 / 2 := by
  intro r
  induction r with
  | zero => intro a q hq; cases h : f a <;> simp [retryGo, h] at hq
  | succ r ih =>
    intro a q hq
    cases h : f a with
    | success v => simp [retryGo, h] at hq
    | terminal e => simp [retryGo, h] at hq
    | transient e =>
      simp only [retryGo, h, List.mem_cons] at hq
      rcases hq with hq | hq
      · exact hq
      · exact ih (a + 1) q hq

lemma retryGo_sleeps_length (f : ℕ → CallOutcome α ε) :
    ∀ (r a : ℕ),
      (retryGo f a r).sleeps.length = (retryGo f a r).attempts - 1 := by
  intro r
  induction r with
  | zero => intro a; cases h : f a <;> simp [retryGo, h]
  | succ r ih =>
    intro a
    cases h : f a with
    | success v => simp [retryGo, h]
    | terminal e => simp [retryGo, h]
    | transient e =>
      simp only [retryGo, h, List.length_cons]
      rw [ih (a + 1)]
      have := retryGo_attempts_pos f (a + 1) r
      omega

lemma retryGo_transient_before (f : ℕ → CallOutcome α ε) :
    ∀ (r a i : ℕ), i + 2 ≤ (retryGo f a r).attempts →
      ∃ e, f (a + i) = CallOutcome.transient e := by
  intro r
  induction r with
  | zero =>
    intro a i hi
    cases h : f a <;> simp [retryGo, h] at hi
  | succ r ih =>
    intro a i hi
    cases h : f a with
    | success v => simp [retryGo, h] at hi
    | terminal e => simp [retryGo, h] at hi
    | transient e =>
      cases i with
      | zero => exact ⟨e, by simpa using h⟩
      | succ i =>
        simp only [retryGo, h] at hi
        have hi' : i + 2 ≤ (retryGo f (a + 1) r).attempts := by omega
        have := ih (a + 1) i hi'
        rcases this with ⟨e', he'⟩
        refine ⟨e', ?_⟩
        have : a + 1 + i = a + (i + 1) := by omega
        rwa [this] at he'

/-- C3: `call_openai_with_retry` makes at most `retries + 1` attempts; every
backoff sleep is the constant 1.5 seconds and there is one sleep between
consecutive attempts; an attempt is followed by another only when it failed
transiently; with `retries = 1`, a transient error followed by a success
returns the success after exactly two attempts, and two consecutive
transient errors raise the second error after exactly two attempts. -/
theorem call_openai_retry_policy (α ε : Type) (f : ℕ → CallOutcome α ε)
    (retries : ℕ) :
    (call_openai_with_retry f retries).attempts ≤ retries + 1
    ∧ (∀ q ∈ (call_openai_with_retry f retries).sleeps, q = 3 / 2)
    ∧ (call_openai_with_retry f retries).sleeps.length =
        (call_openai_with_retry f retries).attempts - 1
    ∧ (∀ i, i + 2 ≤ (call_openai_with_retry f retries).attempts →
        ∃ e, f i = CallOutcome.transient e)
    ∧ (∀ (e : ε) (v : α), f 0 = CallOutcome.transient e →
        f 1 = CallOutcome.success v → retries = 1 →
        call_openai_with_retry f retries = ⟨Except.ok v, 2, [3 / 2]⟩)
    ∧ (∀ (e₁ e₂ : ε), f 0 = CallOutcome.transient e₁ →
        f 1 = CallOutcome.transient e₂ → retries = 1 →
        call_openai_with_retry f retries = ⟨Except.error e₂, 2, [3 / 2]⟩) := by
  refine ⟨retryGo_attempts_le f retries 0,
          fun q hq => retryGo_sleeps_const f retries 0 q hq,
          retryGo_sleeps_length f retries 0,
          fun i hi => by simpa using retryGo_transient_before f retries 0 i hi,
          ?_, ?_⟩
  · intro e v h0 h1 hr
    subst hr
    simp [call_openai_with_retry, retryGo, h0, h1]
  · intro e₁ e₂ h0 h1 hr
    subst hr
    simp [call_openai_with_retry, retryGo, h0, h1]

/-- Witness for C3 at concrete outcome sequences over `ℕ`. -/
theorem call_openai_retry_policy_witness :
    call_openai_with_retry
        (fun n => if n = 0 then CallOutcome.transient 7
                  else CallOutcome.success 42) 1 =
      ⟨Except.ok 42, 2, [3 / 2]⟩ ∧
    call_openai_with_retry
        (fun n => if n = 0 then (CallOutcome.transient 7 : CallOutcome ℕ ℕ)
                  else CallOutcome.transient 8) 1 =
      ⟨Except.error 8, 2, [3 / 2]⟩ := by
  constructor
  · exact (call_openai_retry_policy ℕ ℕ
      (fun n => if n = 0 then CallOutcome.transient 7
                else CallOutcome.success 42) 1).2.2.2.2.1 7 42 rfl rfl rfl
  · exact (call_openai_retry_policy ℕ ℕ
      (fun n => if n = 0 then (CallOutcome.transient 7 : CallOutcome ℕ ℕ)
                else CallOutcome.transient 8) 1).2.2.2.2.2 7 8 rfl rfl rfl

/-- C4: a terminal (non-transient) error on the first attempt is raised
immediately after exactly one attempt with no sleeps, whatever the retry
budget. -/
theorem call_openai_terminal_immediate (α ε : Type)
    (f : ℕ → CallOutcome α ε) (retries : ℕ) (e : ε)
    (h : f 0 = CallOutcome.terminal e) :
    call_openai_with_retry f retries = ⟨Except.error e, 1, []⟩ := by
  cases retries <;> simp [call_openai_with_retry, retryGo, h]

/-- Witness for C4: a terminal error with retry budget 3. -/
theorem call_openai_terminal_immediate_witness :
    call_openai_with_retry
        (fun _ => (CallOutcome.terminal 5 : CallOutcome ℕ ℕ)) 3 =
      ⟨Except.error 5, 1, []⟩ :=
  call_openai_terminal_immediate ℕ ℕ
    (fun _ => CallOutcome.terminal 5) 3 5 rfl



/-- C7: the message list handed to the upstream call is the fixed system
prompt followed by the most recent `HISTORY_LIMIT` caller-provided turns in
their original order (a suffix of the caller's list of length
`min HISTORY_LIMIT length`). -/
theorem chat_history_truncation (messages : List ChatMessage) :
    buildMessages messages =
      systemMessage :: messages.drop (messages.length - HISTORY_LIMIT)
    ∧ messages.drop (messages.length - HISTORY_LIMIT) <:+ messages
    ∧ (messages.drop (messages.length - HISTORY_LIMIT)).length =
        min HISTORY_LIMIT messages.length
    ∧ HISTORY_LIMIT = 8 := by
  refine ⟨rfl, List.drop_suffix _ _, ?_, rfl⟩
  rw [List.length_drop]
  omega

/-- C8: the `/chat` reply is never the empty string: a blank or missing
upstream content is replaced by the non-empty placeholder, and a non-blank
content is returned stripped of surrounding whitespace. -/
theorem chat_reply_nonempty (content : Option String) :
    extractReply content ≠ ""
    ∧ (strip (content.getD "") = "" → extractReply content = PLACEHOLDER)
    ∧ (strip (content.getD "") ≠ "" →
        extractReply content = strip (content.getD ""))
    ∧ PLACEHOLDER ≠ ""
    ∧ extractReply none = PLACEHOLDER := by
  refine ⟨?_, ?_, ?_, by decide, by decide⟩
  · unfold extractReply
    by_cases h : strip (content.getD "") = ""
    · simp only [h, if_pos rfl]
      decide
    · simp [h]
  · intro h
    simp [extractReply, h]
  · intro h
    simp [extractReply, h]

/-- Witness for C8: a whitespace-only content yields the placeholder. -/
theorem chat_reply_nonempty_witness :
    extractReply (some "   ") = PLACEHOLDER :=
  (chat_reply_nonempty (some "   ")).2.1 (by decide)

/-- C10: a caller-supplied turn with role "system" within the most recent
`HISTORY_LIMIT` messages is forwarded verbatim, placed right after the
synthetic system prompt which sits at position 0. -/
theorem chat_system_role_forwarded (messages : List ChatMessage) (i : ℕ)
    (m : ChatMessage) (hm : messages[i]? = some m)
    ( _hrole : m.role = Role.system)
    (hi : messages.length - HISTORY_LIMIT ≤ i) :
    (buildMessages messages)[i - (messages.length - HISTORY_LIMIT) + 1]? =
      some m
    ∧ (buildMessages messages)[0]? = some systemMessage := by
  constructor
  · show (systemMessage :: truncatedHistory messages)[
      i - (messages.length - HISTORY_LIMIT) + 1]? = some m
    rw [List.getElem?_cons_succ]
    unfold truncatedHistory
    rw [List.getElem?_drop]
    rwa [Nat.add_sub_cancel' hi]
  · simp [buildMessages, List.getElem?_cons_zero]

/-- Witness for C10: a system-role turn at index 0 of a short history lands
at position 1 of the upstream message list. -/
theorem chat_system_role_forwarded_witness :
    (buildMessages [⟨Role.system, "extra"⟩])[
      0 - ([(⟨Role.system, "extra"⟩ : ChatMessage)].length - HISTORY_LIMIT) + 1]? =
      some (⟨Role.system, "extra"⟩ : ChatMessage) :=
  (chat_system_role_forwarded [⟨Role.system, "extra"⟩] 0
    ⟨Role.system, "extra"⟩ rfl rfl (by decide)).1

/-- C9 fails on the code: no environment setting can change the model name,
max output tokens, temperature, history truncation limit, or the rate-limit
window and threshold; they are hardcoded constants. -/
theorem config_not_env_configurable :
    ¬ ∃ env : String → Option String,
        (loadConfig env).model ≠ "gpt-4o-mini"
      ∨ (loadConfig env).max_tokens ≠ 500
      ∨ (loadConfig env).temperature ≠ 3 / 10
      ∨ (loadConfig env).history_limit ≠ 8
      ∨ (loadConfig env).window_seconds ≠ 60
      ∨ (loadConfig env).max_requests ≠ 30 := by
  rintro ⟨env, h | h | h | h | h | h⟩
  · exact h rfl
  · exact h rfl
  · exact h rfl
  · exact h rfl
  · exact h (by norm_num [loadConfig, WINDOW_SECONDS])
  · exact h rfl

/-- C9 amended: only the provider API key, the provider project identifier
and the CORS frontend origin are read from the environment; the model name,
max output tokens, temperature, history limit, and rate-limit window and
threshold are the hardcoded constants of back.py. -/
theorem config_env_reads (env : String → Option String) :
    (loadConfig env).openai_api_key = env "OPENAI_API_KEY"
    ∧ (loadConfig env).openai_project = env "OPENAI_PROJECT"
    ∧ (loadConfig env).frontend_origin = env "FRONTEND_ORIGIN"
    ∧ (loadConfig env).model = MODEL
    ∧ (loadConfig env).max_tokens = MAX_TOKENS
    ∧ (loadConfig env).temperature = TEMPERATURE
    ∧ (loadConfig env).history_limit = HISTORY_LIMIT
    ∧ (loadConfig env).window_seconds = WINDOW_SECONDS ℚ
    ∧ (loadConfig env).max_requests = MAX_REQ :=
  ⟨rfl, rfl, rfl, rfl, rfl, rfl, rfl, rfl, rfl⟩

end Back
